import Mathlib

/-!
Shallow embedding of the event-driven coordination engine of the
First Contact E.I.S. repository: the orchestration core
(`backend/app/services/orchestrator.py`), the execution service
(`backend/app/services/executor.py`) and the recommendation status writes
of the approval workflow (`backend/app/routes/orchestration.py`).

Modelling conventions:
* Python floats are modelled as `ℚ`; datetimes as epoch seconds (`Int`);
  the `datetime.now().timestamp()` values that are interpolated into
  generated identifiers are modelled as an explicit `Nat` tick.
* Python dict parameter payloads are association lists over a small
  value type `PVal` covering the value shapes the planner produces.
* Fallible Python code (code that may raise) returns `Except String α`,
  the `String` being the `str(e)` of the exception.
* The external collaborators (context queries, AI backend, pattern
  store, action adapters) are explicit function parameters; the
  repository's no-op demo adapters are provided as one concrete
  instance (`demo_behavior`).
* Mutable statistics counters (`decisions_made`, `executions_count`, …)
  and wall-clock durations are not modelled; no claim refers to them.
  The retry sleeps of `_execute_action` are recorded as an explicit
  trace of slept durations so that the retry-delay behaviour is
  observable.
-/

namespace EIS

/-! ## Orchestrator data model (orchestrator.py dataclasses) -/

/-- A candidate client dict as consumed by `_score_appointment_candidate`:
the code reads `client["id"]`, `client.get("urgency_score", 0)` and
`client.get("documents_complete", False)`. -/
structure Client where
  id : String
  urgency_score : ℚ
  documents_complete : Bool
deriving DecidableEq

/-- The metadata keys of an event that the cancellation rule reads via
`event.metadata.get(...)`. -/
structure EventMetadata where
  appointment_time : Option Int
  provider_id : Option String
  appointment_type : Option String
deriving DecidableEq

/-- `orchestrator.Event` dataclass. -/
structure Event where
  event_id : String
  event_type : String
  timestamp : Int
  client_id : Option String
  provider_id : Option String
  metadata : EventMetadata
deriving DecidableEq

/-- The decision dict built by `_handle_appointment_cancellation`. -/
structure Decision where
  decision_type : String
  original_client_id : Option String
  new_client_id : String
  appointment_time : Option Int
  provider_id : Option String
  confidence : ℚ
  reasoning : List String
deriving DecidableEq

/-- Values appearing in action parameter dicts. -/
inductive PVal where
  | vs (v : String)
  | vi (v : Int)
  | vnull
  | vdecision (d : Decision)
deriving DecidableEq

/-- `orchestrator.Action` dataclass; `depends_on` defaults to `None`. -/
structure Action where
  action_type : String
  target_system : String
  parameters : List (String × PVal)
  depends_on : Option (List String) := none
deriving DecidableEq

/-- `orchestrator.ExecutionPlan` dataclass. -/
structure ExecutionPlan where
  plan_id : String
  actions : List Action
  estimated_duration_seconds : Int
  affected_systems : List String
deriving DecidableEq

/-- The impact dict built by `_calculate_impact` (its
`urgency_improvement` entry holds an int or the string "high"). -/
structure Impact where
  cost_savings : Int
  urgency_improvement : PVal
  efficiency_gain : Int
deriving DecidableEq

/-- `orchestrator.Recommendation` dataclass. -/
structure Recommendation where
  recommendation_id : String
  summary : String
  reasoning : List String
  impact : Impact
  execution_plan : ExecutionPlan
  confidence_score : ℚ
  requires_approval : Bool := true
deriving DecidableEq

/-- `orchestrator.Context` dataclass. -/
structure Context where
  affected_client : Option Client
  related_clients : List Client
  provider_capacity : List (String × PVal)
  system_state : List (String × PVal)
  historical_patterns : List (List (String × PVal))
  business_rules : List (String × PVal)
deriving DecidableEq

/-! ## Orchestrator logic -/

/-- `_should_orchestrate`: membership of the event type in the
orchestrable list. -/
def should_orchestrate (event : Event) : Bool :=
  decide (event.event_type ∈
    ["appointment_cancelled", "housing_available", "documents_complete",
     "deadline_approaching", "client_update", "provider_capacity_change"])

/-- `_is_transport_compatible`: TODO stub in the source, returns `True`. -/
def is_transport_compatible (_client : Client) : Bool := true

/-- `_has_conflicts`: TODO stub in the source, returns `False`. -/
def has_conflicts (_client : Client) : Bool := false

/-- `_is_ambiguous`: TODO stub in the source, returns `False`. -/
def is_ambiguous (_event : Event) (_context : Context) : Bool := false

/-- `_score_appointment_candidate`: starts at 0, adds
`(urgency / 10) * 0.4`, then 0.2 for each of documents ready,
transport compatible and no conflicts, and returns `min(score, 1.0)`. -/
def score_appointment_candidate (client : Client) : ℚ :=
  let s1 : ℚ := (client.urgency_score / 10) * 0.4
  let s2 : ℚ := s1 + (if client.documents_complete then 0.2 else 0)
  let s3 : ℚ := s2 + (if is_transport_compatible client then 0.2 else 0)
  let s4 : ℚ := s3 + (if has_conflicts client then 0 else 0.2)
  min s4 1

/-- The candidate loop of `_handle_appointment_cancellation`:
`best_candidate = None; best_score = 0.0`, then for each client,
`if score > best_score and score > 0.7: best_score, best_candidate = score, client`. -/
def select_candidate_loop (best : Option Client) (best_score : ℚ) :
    List Client → Option Client × ℚ
  | [] => (best, best_score)
  | client :: rest =>
    let score := score_appointment_candidate client
    if score > best_score ∧ score > 0.7 then
      select_candidate_loop (some client) score rest
    else
      select_candidate_loop best best_score rest

/-- The candidate selection of `_handle_appointment_cancellation`,
started from `(None, 0.0)`. -/
def select_candidate (candidates : List Client) : Option Client × ℚ :=
  select_candidate_loop none 0 candidates

/-- `_handle_appointment_cancellation`: score the related clients and,
when a best candidate was retained, build the `bump_appointment`
decision dict. -/
def handle_appointment_cancellation (event : Event) (context : Context) :
    Option Decision :=
  let cancelled_time := event.metadata.appointment_time
  let provider_id := event.metadata.provider_id
  match select_candidate context.related_clients with
  | (some best, best_score) =>
    some
      { decision_type := "bump_appointment"
        original_client_id := event.client_id
        new_client_id := best.id
        appointment_time := cancelled_time
        provider_id := provider_id
        confidence := best_score
        reasoning :=
          ["Higher medical urgency (" ++ toString best.urgency_score ++ ")",
           "All required documents uploaded",
           "Lives on existing transport route",
           "No scheduling conflicts"] }
  | (none, _) => none

/-- `_apply_business_rules`: event-type keyed rule chain; the housing,
documents and deadline handlers are TODO stubs returning `None`. -/
def apply_business_rules (event : Event) (context : Context) : Option Decision :=
  if event.event_type = "appointment_cancelled" then
    handle_appointment_cancellation event context
  else if event.event_type = "housing_available" then none
  else if event.event_type = "documents_complete" then none
  else if event.event_type = "deadline_approaching" then none
  else none

/-- The external collaborators of the orchestrator: the context queries,
the pattern store and the optional generative-decision backend.  Each
may fail (raise); in the repository they are TODO stubs, here they are
kept abstract so the fail-safe property quantifies over their
behaviour. -/
structure Collaborators where
  query_client : String → Except String (Option Client)
  query_related_clients : Event → Except String (List Client)
  query_provider_capacity : Event → Except String (List (String × PVal))
  query_system_state : Except String (List (String × PVal))
  query_historical_patterns : Event → Except String (List (List (String × PVal)))
  store_pattern : Event → Context → Decision → Recommendation → Except String Unit
  ai : Option (Event → Context → Except String (Option Decision))

/-- `_load_business_rules`: TODO stub returning an empty dict. -/
def load_business_rules : List (String × PVal) := []

/-- `_get_full_context`: assemble the context from the collaborator
queries (affected client only when the event carries a client id). -/
def get_full_context (co : Collaborators) (event : Event) :
    Except String Context := do
  let affected_client ←
    match event.client_id with
    | some cid => co.query_client cid
    | none => pure none
  let related_clients ← co.query_related_clients event
  let provider_capacity ← co.query_provider_capacity event
  let system_state ← co.query_system_state
  let historical_patterns ← co.query_historical_patterns event
  pure
    { affected_client := affected_client
      related_clients := related_clients
      provider_capacity := provider_capacity
      system_state := system_state
      historical_patterns := historical_patterns
      business_rules := load_business_rules }

/-- `_make_decision`: deterministic rules first; the AI fallback is only
consulted when an AI service is configured and `_is_ambiguous` holds
(the latter is a stub returning `False`). -/
def make_decision (co : Collaborators) (event : Event) (context : Context) :
    Except String (Option Decision) :=
  match apply_business_rules event context with
  | some decision => Except.ok (some decision)
  | none =>
    match co.ai with
    | some ai_decide =>
      if is_ambiguous event context then ai_decide event context
      else Except.ok none
    | none => Except.ok none

/-- Python rendering used where an optional datetime is interpolated
into an f-string (`None` prints as "None"). -/
def py_repr_opt_int : Option Int → String
  | none => "None"
  | some t => toString t

/-- Python `None`-or-string parameter value. -/
def opt_str_pval : Option String → PVal
  | some s => PVal.vs s
  | none => PVal.vnull

/-- `_create_execution_plan`: for a `bump_appointment` decision, the six
actions cancel → book (depends_on cancel) → update_transport →
send_sms → notify_provider → update_case; for any other decision type an
empty action list.  Building the transport action computes
`appointment_time - timedelta(minutes=30)`, which raises a `TypeError`
when the decision's appointment time is `None`. -/
def create_execution_plan (decision : Decision) (ts : Nat) :
    Except String ExecutionPlan :=
  let plan_id := "plan_" ++ toString ts
  if decision.decision_type = "bump_appointment" then
    match decision.appointment_time with
    | none =>
      Except.error
        ("TypeError: unsupported operand type(s) for -: NoneType and datetime.timedelta")
    | some t =>
      let actions : List Action :=
        [{ action_type := "cancel_appointment"
           target_system := "provider_scheduling"
           parameters :=
             [("provider_id", opt_str_pval decision.provider_id),
              ("client_id", PVal.vs decision.new_client_id),
              ("appointment_time", PVal.vi t)] },
         { action_type := "book_appointment"
           target_system := "provider_scheduling"
           parameters :=
             [("provider_id", opt_str_pval decision.provider_id),
              ("client_id", PVal.vs decision.new_client_id),
              ("appointment_time", PVal.vi t)]
           depends_on := some ["cancel_appointment"] },
         { action_type := "update_transport"
           target_system := "transportation"
           parameters :=
             [("client_id", PVal.vs decision.new_client_id),
              ("pickup_time", PVal.vi (t - 30 * 60)),
              ("destination", PVal.vs ("provider_location"))] },
         { action_type := "send_sms"
           target_system := "notifications"
           parameters :=
             [("client_id", PVal.vs decision.new_client_id),
              ("message", PVal.vs
                ("Good news! Your appointment moved up to today at " ++
                 toString t ++ ". Transport arranged."))] },
         { action_type := "notify_provider"
           target_system := "provider_api"
           parameters :=
             [("provider_id", opt_str_pval decision.provider_id),
              ("message", PVal.vs
                ("Patient update: " ++ decision.new_client_id ++
                 " moved to " ++ toString t))] },
         { action_type := "update_case"
           target_system := "case_management"
           parameters :=
             [("client_id", PVal.vs decision.new_client_id),
              ("update_type", PVal.vs ("appointment_rescheduled")),
              ("details", PVal.vdecision decision)] }]
      Except.ok
        { plan_id := plan_id
          actions := actions
          estimated_duration_seconds := (actions.length : Int) * 2
          affected_systems := (actions.map Action.target_system).dedup }
  else
    Except.ok
      { plan_id := plan_id
        actions := []
        estimated_duration_seconds := 0
        affected_systems := [] }

/-- `_create_summary`. -/
def create_summary (decision : Decision) : String :=
  if decision.decision_type = "bump_appointment" then
    "Bump Client " ++ decision.new_client_id ++ " to today's " ++
      py_repr_opt_int decision.appointment_time ++ " appointment?"
  else
    "Optimization opportunity detected"

/-- `_calculate_impact`: cost savings 120 for a bump, and
`urgency_improvement = "high"` when the confidence exceeds 0.8. -/
def calculate_impact (decision : Decision) : Impact :=
  if decision.decision_type = "bump_appointment" then
    { cost_savings := 120
      urgency_improvement :=
        if decision.confidence > 0.8 then PVal.vs ("high") else PVal.vi 0
      efficiency_gain := 0 }
  else
    { cost_savings := 0, urgency_improvement := PVal.vi 0, efficiency_gain := 0 }

/-- `_format_recommendation`. -/
def format_recommendation (decision : Decision) (plan : ExecutionPlan)
    (ts : Nat) : Recommendation :=
  { recommendation_id := "rec_" ++ toString ts
    summary := create_summary decision
    reasoning := decision.reasoning
    impact := calculate_impact decision
    execution_plan := plan
    confidence_score := decision.confidence
    requires_approval := true }

/-- The body of the `try` block of `handle_event`: filter, context
gathering, decision, planning, formatting and pattern storage. -/
def handle_event_try (co : Collaborators) (ts : Nat) (event : Event) :
    Except String (Option Recommendation) :=
  if should_orchestrate event then do
    let context ← get_full_context co event
    let decision? ← make_decision co event context
    match decision? with
    | none => Except.ok none
    | some decision => do
      let plan ← create_execution_plan decision ts
      let recommendation := format_recommendation decision plan ts
      let _ ← co.store_pattern event context decision recommendation
      Except.ok (some recommendation)
  else
    Except.ok none

/-- `handle_event`: the whole brain cycle runs inside one
`try/except`; any exception yields `None` (no recommendation). -/
def handle_event (co : Collaborators) (ts : Nat) (event : Event) :
    Option Recommendation :=
  match handle_event_try co ts event with
  | Except.ok r => r
  | Except.error _ => none

/-! ## Execution service (executor.py) -/

/-- `executor.ActionStatus`. -/
inductive ActionStatus where
  | pending
  | running
  | completed
  | failed
  | rolled_back
deriving DecidableEq

/-- `executor.ActionResult` (start/completion wall-clock times are not
modelled). -/
structure ActionResult where
  action_id : String
  status : ActionStatus
  result_data : Option (List (String × PVal)) := none
  error_message : Option String := none
  retry_count : Nat := 0
deriving DecidableEq

/-- `executor.ExecutionResult` (wall-clock duration not modelled). -/
structure ExecutionResult where
  plan_id : String
  status : String
  actions_completed : Nat
  actions_failed : Nat
  action_results : List ActionResult
  rollback_performed : Bool := false
deriving DecidableEq

/-- The executor configuration set in `ExecutionService.__init__`:
`max_retries = 3`, `retry_delay_seconds = 2`. -/
structure ExecCfg where
  max_retries : Nat := 3
  retry_delay_seconds : Nat := 2
deriving DecidableEq

/-- The defaults of `ExecutionService.__init__`. -/
def default_cfg : ExecCfg := {}

/-- One adapter dispatch outcome: given the action, the tick from which
its `action_id` timestamp is built, and the attempt number, either the
`result_data` dict or the message of the raised exception.  The
`demo_mode` flag of the service is reflected in which behaviour is
plugged in (`demo_behavior` for the demo adapters). -/
def AdapterBehavior : Type :=
  Action → Nat → Nat → Except String (List (String × PVal))

/-- Python `"x_y".split("_")[0]`: the characters before the first
underscore. -/
def py_first_field (s : String) : String :=
  String.mk (s.toList.takeWhile (fun c => c ≠ '_'))

/-- The `completed_types` set comprehension of `_dependencies_met`:
`result.action_id.split("_")[0]` for every COMPLETED result. -/
def completed_types (results : List ActionResult) : List String :=
  (results.filter (fun r => decide (r.status = ActionStatus.completed))).map
    (fun r => py_first_field r.action_id)

/-- `_dependencies_met`: vacuously true for a `None` (or empty)
`depends_on`; otherwise every dependency string must occur among the
completed types. -/
def dependencies_met (action : Action) (results : List ActionResult) : Bool :=
  match action.depends_on with
  | none => true
  | some deps => deps.all (fun dep => decide (dep ∈ completed_types results))

/-- `_is_critical_action`. -/
def is_critical_action (action : Action) : Bool :=
  decide (action.action_type ∈ ["book_appointment", "update_case", "cancel_appointment"])

/-- `_rollback`: TODO stub; logs a warning and returns `True`. -/
def rollback_actions (_results : List ActionResult) : Bool := true

/-- The `f"{action.action_type}_{datetime.now().timestamp()}"` action id,
with the timestamp modelled by the tick. -/
def action_identifier (action : Action) (tick : Nat) : String :=
  action.action_type ++ "_" ++ toString tick

/-- The retry loop of `_execute_action`: attempts `0 .. max_retries-1`;
a success returns COMPLETED with `retry_count = attempt`; an exception
sleeps `retry_delay_seconds` and retries while `attempt < max_retries-1`,
and on the last attempt returns FAILED carrying the error and
`retry_count = attempt + 1`.  The returned list is the trace of slept
retry delays.  `none` models the `for` loop falling through without
returning (possible only when `max_retries = 0`, where Python would
return `None`). -/
def execute_action_loop (mr delay : Nat)
    (beh : Nat → Except String (List (String × PVal))) (action_id : String) :
    Nat → Nat → Option (ActionResult × List Nat)
  | _, 0 => none
  | attempt, fuel + 1 =>
    match beh attempt with
    | Except.ok result_data =>
      some
        ({ action_id := action_id
           status := ActionStatus.completed
           result_data := some result_data
           error_message := none
           retry_count := attempt }, [])
    | Except.error e =>
      if attempt < mr - 1 then
        match execute_action_loop mr delay beh action_id (attempt + 1) fuel with
        | some (r, sleeps) => some (r, delay :: sleeps)
        | none => none
      else
        some
          ({ action_id := action_id
             status := ActionStatus.failed
             result_data := none
             error_message := some e
             retry_count := attempt + 1 }, [])

/-- `_execute_action`, entered at attempt 0 with enough fuel for
`max_retries` iterations. -/
def execute_action (cfg : ExecCfg)
    (beh : Nat → Except String (List (String × PVal))) (action_id : String) :
    Option (ActionResult × List Nat) :=
  execute_action_loop cfg.max_retries cfg.retry_delay_seconds beh action_id 0
    cfg.max_retries

/-- The running state of the `execute_plan` action loop. -/
structure LoopState where
  action_results : List ActionResult
  completed : Nat
  failed : Nat
  tick : Nat
deriving DecidableEq

/-- How the action loop of `execute_plan` ended: ran off the end of the
list, broke after a critical failure (carrying the unprocessed
remainder), or was left by an unexpected exception. -/
inductive LoopOutcome where
  | fin (st : LoopState)
  | brk (st : LoopState) (remaining : List Action)
  | exc (st : LoopState)
deriving DecidableEq

/-- Append a freshly produced `ActionResult` and update the
completed/failed counters exactly as the loop body does. -/
def push_result (st : LoopState) (r : ActionResult) : LoopState :=
  { action_results := st.action_results ++ [r]
    completed := st.completed + (if r.status = ActionStatus.completed then 1 else 0)
    failed := st.failed + (if r.status = ActionStatus.failed then 1 else 0)
    tick := st.tick + 1 }

/-- The `for action in execution_plan.actions` loop of `execute_plan`:
skip actions whose dependencies are unmet (recording nothing), execute
the rest, and break (after triggering rollback) when a FAILED result
belongs to a critical action. -/
def execute_plan_loop (cfg : ExecCfg) (beh : AdapterBehavior) :
    List Action → LoopState → LoopOutcome
  | [], st => LoopOutcome.fin st
  | action :: rest, st =>
    if dependencies_met action st.action_results then
      match execute_action cfg (beh action st.tick)
          (action_identifier action st.tick) with
      | none => LoopOutcome.exc st
      | some (result, _sleeps) =>
        let st' := push_result st result
        if result.status = ActionStatus.failed ∧ is_critical_action action = true then
          LoopOutcome.brk st' rest
        else
          execute_plan_loop cfg beh rest st'
    else
      execute_plan_loop cfg beh rest st

/-- The initial loop state of one `execute_plan` call. -/
def initial_loop_state : LoopState :=
  { action_results := [], completed := 0, failed := 0, tick := 0 }

/-- `execute_plan`: run the action loop, then derive the final status
(`success` when nothing failed, `partial_success` when something
completed despite failures, `failed` otherwise).  The `except` branch
returns status "failed" with `actions_failed` incremented once more and
`rollback_performed` left at its default `False`. -/
def execute_plan (cfg : ExecCfg) (beh : AdapterBehavior)
    (plan : ExecutionPlan) : ExecutionResult :=
  match execute_plan_loop cfg beh plan.actions initial_loop_state with
  | LoopOutcome.fin st =>
    { plan_id := plan.plan_id
      status :=
        if st.failed = 0 then "success"
        else if st.completed > 0 then "partial_success"
        else "failed"
      actions_completed := st.completed
      actions_failed := st.failed
      action_results := st.action_results
      rollback_performed := false }
  | LoopOutcome.brk st _remaining =>
    { plan_id := plan.plan_id
      status :=
        if st.failed = 0 then "success"
        else if st.completed > 0 then "partial_success"
        else "failed"
      actions_completed := st.completed
      actions_failed := st.failed
      action_results := st.action_results
      rollback_performed := rollback_actions st.action_results }
  | LoopOutcome.exc st =>
    { plan_id := plan.plan_id
      status := "failed"
      actions_completed := st.completed
      actions_failed := st.failed + 1
      action_results := st.action_results
      rollback_performed := false }

/-- Python `params['message']` key lookup. -/
def param_lookup (params : List (String × PVal)) (key : String) : Option PVal :=
  (params.find? (fun p => decide (p.1 = key))).map Prod.snd

/-- The demo-mode (`demo_mode=True`) adapter dispatch of
`_execute_action`: the per-type demo stubs, a `KeyError` when an SMS or
provider notification lacks its `message` parameter, and the
`ValueError` of the final `else` for unknown action types. -/
def demo_adapter_call (action : Action) : Except String (List (String × PVal)) :=
  if action.action_type = "cancel_appointment" then
    Except.ok [("status", PVal.vs ("cancelled")), ("confirmation", PVal.vs ("DEMO-12345"))]
  else if action.action_type = "book_appointment" then
    Except.ok [("status", PVal.vs ("booked")), ("confirmation", PVal.vs ("DEMO-67890"))]
  else if action.action_type = "update_transport" then
    Except.ok [("status", PVal.vs ("updated")), ("route_id", PVal.vs ("DEMO-ROUTE-001"))]
  else if action.action_type = "send_sms" then
    match param_lookup action.parameters "message" with
    | some _ => Except.ok [("status", PVal.vs ("sent")), ("message_id", PVal.vs ("DEMO-SMS-001"))]
    | none => Except.error ("KeyError: message")
  else if action.action_type = "notify_provider" then
    match param_lookup action.parameters "message" with
    | some _ => Except.ok [("status", PVal.vs ("notified"))]
    | none => Except.error ("KeyError: message")
  else if action.action_type = "update_case" then
    Except.ok [("status", PVal.vs ("updated"))]
  else
    Except.error ("Unknown action type: " ++ action.action_type)

/-- The adapter behaviour of a demo-mode service: every dispatch runs
the deterministic demo stubs, independent of tick and attempt. -/
def demo_behavior : AdapterBehavior :=
  fun action _tick _attempt => demo_adapter_call action

/-! ## Approval workflow status writes (routes/orchestration.py) -/

/-- How a background execution task scheduled by
`approve_recommendation` ends: the executor returned a result whose
`status` string is carried here, or the executor call raised (the
task's own `except` writes "failed"). -/
inductive BackgroundKind where
  | done (exec_status : String)
  | raised
deriving DecidableEq

/-- The status a background task writes when it eventually runs:
success → completed, failed → failed, anything else → partial_success;
an exception inside the task writes "failed". -/
def background_status : BackgroundKind → String
  | BackgroundKind.done s =>
    if s = "success" then "completed"
    else if s = "failed" then "failed"
    else "partial_success"
  | BackgroundKind.raised => "failed"

/-- One atomic event touching a stored recommendation's status.
`approve` is the synchronous part of `approve_recommendation`: it writes
"executing" immediately and — when the stored plan exists — schedules a
background task that runs later (`task = none` models the missing-plan
400, raised after the status write, with no task scheduled).  `reject`
writes "rejected".  `run_background k` is the deferred completion of the
k-th still-pending background task, at whatever later point the runtime
executes it — possibly after further approve/reject calls. -/
inductive WorkflowEvent where
  | approve (task : Option BackgroundKind)
  | reject
  | run_background (k : Nat)
deriving DecidableEq

/-- A stored recommendation's status together with the background tasks
scheduled but not yet run. -/
structure WorkflowState where
  status : String
  pending : List BackgroundKind
deriving DecidableEq

/-- The state `trigger_event` stores: status "pending_approval", no
background task. -/
def initial_workflow_state : WorkflowState :=
  { status := "pending_approval", pending := [] }

/-- One event's effect: the successor state and the status writes the
event performs (a pending-task index out of range writes nothing). -/
def workflow_step (st : WorkflowState) : WorkflowEvent → WorkflowState × List String
  | WorkflowEvent.approve (some task) =>
    ({ status := "executing", pending := st.pending ++ [task] }, ["executing"])
  | WorkflowEvent.approve none =>
    ({ status := "executing", pending := st.pending }, ["executing"])
  | WorkflowEvent.reject =>
    ({ status := "rejected", pending := st.pending }, ["rejected"])
  | WorkflowEvent.run_background k =>
    match st.pending.get? k with
    | some task =>
      ({ status := background_status task, pending := st.pending.eraseIdx k },
       [background_status task])
    | none => (st, [])

/-- The status writes an event sequence performs from a given state. -/
def workflow_run : WorkflowState → List WorkflowEvent → List String
  | _, [] => []
  | st, e :: es =>
    (workflow_step st e).2 ++ workflow_run (workflow_step st e).1 es

/-- The status history of a stored recommendation: created as
"pending_approval" by `trigger_event`, then every status written by the
subsequent interleaving of approve/reject calls and background-task
completions. -/
def workflow_trace (events : List WorkflowEvent) : List String :=
  "pending_approval" :: workflow_run initial_workflow_state events

/-- Check a Boolean step relation on every adjacent pair of a list. -/
def adjacent_ok (step : String → String → Bool) : List String → Bool
  | a :: b :: rest => step a b && adjacent_ok step (b :: rest)
  | _ => true

/-- The transition relation asserted by the specification's
recommendation state machine: `pending_approval → executing`,
`pending_approval → rejected`, `executing → completed|partial_success|failed`,
nothing else. -/
def spec_transition (a b : String) : Bool :=
  decide ((a = "pending_approval" ∧ (b = "executing" ∨ b = "rejected")) ∨
    (a = "executing" ∧ (b = "completed" ∨ b = "partial_success" ∨ b = "failed")))

/-- Scanning a write list from the left, an "executing" write occurs
before any execution-outcome write (completed, partial_success,
failed); vacuously true when no outcome is written. -/
def no_outcome_before_executing : List String → Bool
  | [] => true
  | w :: rest =>
    if w = "executing" then true
    else if w = "completed" ∨ w = "partial_success" ∨ w = "failed" then false
    else no_outcome_before_executing rest

/-! ## Scenario A / B concrete data -/

/-- Scenario candidate A: urgency 3, documents not complete. -/
def client_a : Client :=
  { id := "client-A", urgency_score := 3, documents_complete := false }

/-- Scenario candidate B: urgency 8, documents complete (transport
compatible and conflict-free under the source's stub helpers). -/
def client_b : Client :=
  { id := "client-B", urgency_score := 8, documents_complete := true }

/-- The Scenario A `appointment_cancelled` event. -/
def scenario_event : Event :=
  { event_id := "evt-1"
    event_type := "appointment_cancelled"
    timestamp := 0
    client_id := some ("client-orig")
    provider_id := some ("prov-1")
    metadata :=
      { appointment_time := some 36000
        provider_id := some ("prov-1")
        appointment_type := some ("medical") } }

/-- Collaborators whose candidate query returns exactly the two scenario
candidates and whose remaining queries succeed with the stub values. -/
def scenario_collaborators : Collaborators :=
  { query_client := fun _ => Except.ok none
    query_related_clients := fun _ => Except.ok [client_a, client_b]
    query_provider_capacity := fun _ => Except.ok []
    query_system_state := Except.ok []
    query_historical_patterns := fun _ => Except.ok []
    store_pattern := fun _ _ _ _ => Except.ok ()
    ai := none }

/-! ## Lemmas about the retry loop of `_execute_action` -/

/-- `_execute_action` only falls through its `for` loop (returning
Python `None`) when `max_retries = 0`. -/
theorem execute_action_loop_ne_none (mr delay : Nat)
    (beh : Nat → Except String (List (String × PVal))) (aid : String) :
    ∀ fuel attempt, attempt + fuel = mr → 0 < fuel →
      execute_action_loop mr delay beh aid attempt fuel ≠ none := by
  intro fuel
  induction fuel with
  | zero => omega
  | succ f ih =>
    intro attempt hsum _
    unfold execute_action_loop
    cases hbeh : beh attempt with
    | ok d => simp
    | error e =>
      dsimp only
      by_cases hlt : attempt < mr - 1
      · rw [if_pos hlt]
        have h2 : attempt + 1 + f = mr := by omega
        have h3 : 0 < f := by omega
        cases hrec : execute_action_loop mr delay beh aid (attempt + 1) f with
        | none => exact absurd hrec (ih (attempt + 1) h2 h3)
        | some pr => cases pr with | mk r sleeps => simp
      · rw [if_neg hlt]; simp

/-- With at least one allowed attempt, `_execute_action` returns a
result. -/
theorem execute_action_ne_none (cfg : ExecCfg)
    (beh : Nat → Except String (List (String × PVal))) (aid : String)
    (h : 1 ≤ cfg.max_retries) : execute_action cfg beh aid ≠ none :=
  execute_action_loop_ne_none cfg.max_retries cfg.retry_delay_seconds beh aid
    cfg.max_retries 0 (by omega) (by omega)

/-- A FAILED result of the retry loop is only produced on the last
allowed attempt, so it always carries `retry_count = max_retries` and an
error message. -/
theorem execute_action_loop_failed_spec (mr delay : Nat)
    (beh : Nat → Except String (List (String × PVal))) (aid : String) :
    ∀ fuel attempt r sleeps, attempt + fuel = mr →
      execute_action_loop mr delay beh aid attempt fuel = some (r, sleeps) →
      r.status = ActionStatus.failed →
      r.retry_count = mr ∧ ∃ e, r.error_message = some e ∧
        beh (mr - 1) = Except.error e := by
  intro fuel
  induction fuel with
  | zero => intro attempt r sleeps _ hsome; simp [execute_action_loop] at hsome
  | succ f ih =>
    intro attempt r sleeps hsum hsome hfail
    unfold execute_action_loop at hsome
    cases hbeh : beh attempt with
    | ok d =>
      rw [hbeh] at hsome
      dsimp only at hsome
      simp at hsome
      rw [← hsome.1] at hfail
      simp at hfail
    | error e =>
      rw [hbeh] at hsome
      dsimp only at hsome
      by_cases hlt : attempt < mr - 1
      · rw [if_pos hlt] at hsome
        cases hrec : execute_action_loop mr delay beh aid (attempt + 1) f with
        | none => rw [hrec] at hsome; simp at hsome
        | some pr =>
          cases pr with
          | mk r' sleeps' =>
            rw [hrec] at hsome
            simp at hsome
            obtain ⟨hr, _⟩ := hsome
            exact ih (attempt + 1) r' sleeps' (by omega) hrec (hr ▸ hfail) |>.imp
              (fun h1 => hr ▸ h1) (fun h2 => hr ▸ h2)
      · rw [if_neg hlt] at hsome
        simp at hsome
        have hattempt : attempt = mr - 1 := by omega
        obtain ⟨hr, _⟩ := hsome
        refine ⟨?_, e, ?_, ?_⟩
        · rw [← hr]; simp; omega
        · rw [← hr]
        · rw [← hattempt]; exact hbeh

/-- When every allowed attempt raises, the retry loop sleeps the fixed
delay between consecutive attempts and ends FAILED with the last
attempt's error. -/
theorem execute_action_loop_all_fail (mr delay : Nat)
    (beh : Nat → Except String (List (String × PVal))) (aid : String)
    (errs : Nat → String) :
    ∀ fuel attempt, attempt + fuel = mr → 0 < fuel →
      (∀ k, attempt ≤ k → k < mr → beh k = Except.error (errs k)) →
      execute_action_loop mr delay beh aid attempt fuel =
        some ({ action_id := aid
                status := ActionStatus.failed
                result_data := none
                error_message := some (errs (mr - 1))
                retry_count := mr }, List.replicate (fuel - 1) delay) := by
  intro fuel
  induction fuel with
  | zero => omega
  | succ f ih =>
    intro attempt hsum hpos herr
    unfold execute_action_loop
    rw [herr attempt (le_refl _) (by omega)]
    dsimp only
    by_cases hlt : attempt < mr - 1
    · rw [if_pos hlt]
      have hrec := ih (attempt + 1) (by omega) (by omega)
        (fun k hk1 hk2 => herr k (by omega) hk2)
      rw [hrec]
      have hf : 0 < f := by omega
      simp
      cases f with
      | zero => omega
      | succ f2 => simp [List.replicate_succ]
    · rw [if_neg hlt]
      have hattempt : attempt = mr - 1 := by omega
      have hf : f = 0 := by omega
      subst hf
      simp [hattempt]
      omega

/-! ## Lemmas about the action loop of `execute_plan` -/

/-- An action whose dependencies are unmet is skipped: the loop state
(results, counters, tick) is untouched. -/
theorem execute_plan_loop_skip (cfg : ExecCfg) (beh : AdapterBehavior)
    (a : Action) (rest : List Action) (st : LoopState)
    (h : dependencies_met a st.action_results = false) :
    execute_plan_loop cfg beh (a :: rest) st = execute_plan_loop cfg beh rest st := by
  conv_lhs => unfold execute_plan_loop
  rw [h]
  simp

/-- Unfolding one executed action of the loop. -/
theorem execute_plan_loop_run (cfg : ExecCfg) (beh : AdapterBehavior)
    (a : Action) (rest : List Action) (st : LoopState) (r : ActionResult)
    (sleeps : List Nat)
    (hdep : dependencies_met a st.action_results = true)
    (hexec : execute_action cfg (beh a st.tick) (action_identifier a st.tick) =
      some (r, sleeps)) :
    execute_plan_loop cfg beh (a :: rest) st =
      if r.status = ActionStatus.failed ∧ is_critical_action a = true then
        LoopOutcome.brk (push_result st r) rest
      else
        execute_plan_loop cfg beh rest (push_result st r) := by
  conv_lhs => unfold execute_plan_loop
  rw [hdep, hexec]
  simp

/-- The `except` path: `_execute_action` returned Python `None` and the
subsequent attribute access raised. -/
theorem execute_plan_loop_none (cfg : ExecCfg) (beh : AdapterBehavior)
    (a : Action) (rest : List Action) (st : LoopState)
    (hdep : dependencies_met a st.action_results = true)
    (hexec : execute_action cfg (beh a st.tick) (action_identifier a st.tick) = none) :
    execute_plan_loop cfg beh (a :: rest) st = LoopOutcome.exc st := by
  unfold execute_plan_loop
  rw [hdep, hexec]
  simp

/-- With at least one allowed retry attempt, the loop never ends in the
exception outcome. -/
theorem execute_plan_loop_no_exc (cfg : ExecCfg) (beh : AdapterBehavior)
    (h : 1 ≤ cfg.max_retries) :
    ∀ (acts : List Action) (st st' : LoopState),
      execute_plan_loop cfg beh acts st ≠ LoopOutcome.exc st' := by
  intro acts
  induction acts with
  | nil => intro st st'; simp [execute_plan_loop]
  | cons a rest ih =>
    intro st st'
    by_cases hdep : dependencies_met a st.action_results = true
    · cases hexec : execute_action cfg (beh a st.tick) (action_identifier a st.tick) with
      | none => exact absurd hexec (execute_action_ne_none _ _ _ h)
      | some pr =>
        cases pr with
        | mk r sleeps =>
          rw [execute_plan_loop_run cfg beh a rest st r sleeps hdep hexec]
          by_cases hcrit : r.status = ActionStatus.failed ∧ is_critical_action a = true
          · rw [if_pos hcrit]; simp
          · rw [if_neg hcrit]; exact ih _ _
    · rw [execute_plan_loop_skip cfg beh a rest st (by simpa using hdep)]
      exact ih _ _

/-- The completed+failed charge of a loop outcome, counting the extra
failure the `except` branch of `execute_plan` adds. -/
def loop_outcome_charge : LoopOutcome → Nat
  | LoopOutcome.fin st => st.completed + st.failed
  | LoopOutcome.brk st _ => st.completed + st.failed
  | LoopOutcome.exc st => st.completed + st.failed + 1

/-- Each recorded result raises the completed+failed total by at most
one. -/
theorem push_result_counts (st : LoopState) (r : ActionResult) :
    (push_result st r).completed + (push_result st r).failed ≤
      st.completed + st.failed + 1 := by
  simp only [push_result]
  split_ifs with h1 h2
  · exact absurd (h1.symm.trans h2) (by decide)
  · omega
  · omega
  · omega

/-- Loop invariant: the final charge is bounded by the starting counts
plus the number of actions still to process. -/
theorem execute_plan_loop_charge (cfg : ExecCfg) (beh : AdapterBehavior) :
    ∀ (acts : List Action) (st : LoopState),
      loop_outcome_charge (execute_plan_loop cfg beh acts st) ≤
        st.completed + st.failed + acts.length := by
  intro acts
  induction acts with
  | nil => intro st; simp [execute_plan_loop, loop_outcome_charge]
  | cons a rest ih =>
    intro st
    by_cases hdep : dependencies_met a st.action_results = true
    · cases hexec : execute_action cfg (beh a st.tick) (action_identifier a st.tick) with
      | none =>
        rw [execute_plan_loop_none cfg beh a rest st hdep hexec]
        simp only [loop_outcome_charge, List.length_cons]
        omega
      | some pr =>
        cases pr with
        | mk r sleeps =>
          rw [execute_plan_loop_run cfg beh a rest st r sleeps hdep hexec]
          have hpush := push_result_counts st r
          by_cases hcrit : r.status = ActionStatus.failed ∧ is_critical_action a = true
          · rw [if_pos hcrit]
            simp [loop_outcome_charge]
            omega
          · rw [if_neg hcrit]
            have := ih (push_result st r)
            simp only [List.length_cons]
            omega
    · rw [execute_plan_loop_skip cfg beh a rest st (by simpa using hdep)]
      have := ih st
      simp only [List.length_cons]
      omega

/-- Characterization of a loop ending by `break`: some prefix was
processed, the breaking action is critical, its FAILED result (with
retries exhausted) is the last recorded result, and exactly the suffix
after the breaking action was left unprocessed. -/
theorem execute_plan_loop_brk_spec (cfg : ExecCfg) (beh : AdapterBehavior) :
    ∀ (acts : List Action) (st st' : LoopState) (rem : List Action),
      execute_plan_loop cfg beh acts st = LoopOutcome.brk st' rem →
      (∃ done a, acts = done ++ a :: rem ∧ is_critical_action a = true) ∧
      ∃ r, st'.action_results.getLast? = some r ∧
        r.status = ActionStatus.failed ∧ r.retry_count = cfg.max_retries := by
  intro acts
  induction acts with
  | nil => intro st st' rem h; simp [execute_plan_loop] at h
  | cons a rest ih =>
    intro st st' rem h
    by_cases hdep : dependencies_met a st.action_results = true
    · cases hexec : execute_action cfg (beh a st.tick) (action_identifier a st.tick) with
      | none =>
        rw [execute_plan_loop_none cfg beh a rest st hdep hexec] at h
        simp at h
      | some pr =>
        cases pr with
        | mk r sleeps =>
          rw [execute_plan_loop_run cfg beh a rest st r sleeps hdep hexec] at h
          by_cases hcrit : r.status = ActionStatus.failed ∧ is_critical_action a = true
          · rw [if_pos hcrit] at h
            simp only [LoopOutcome.brk.injEq] at h
            obtain ⟨hst, hrem⟩ := h
            have hretry := execute_action_loop_failed_spec cfg.max_retries
              cfg.retry_delay_seconds (beh a st.tick) (action_identifier a st.tick)
              cfg.max_retries 0 r sleeps (by omega) hexec hcrit.1
            refine ⟨⟨[], a, by rw [hrem]; rfl, hcrit.2⟩, r, ?_, hcrit.1, hretry.1⟩
            rw [← hst]
            simp [push_result]
          · rw [if_neg hcrit] at h
            obtain ⟨⟨done, a', hacts, hcrit'⟩, hr⟩ := ih _ _ _ h
            exact ⟨⟨a :: done, a', by rw [hacts]; rfl, hcrit'⟩, hr⟩
    · rw [execute_plan_loop_skip cfg beh a rest st (by simpa using hdep)] at h
      obtain ⟨⟨done, a', hacts, hcrit'⟩, hr⟩ := ih _ _ _ h
      exact ⟨⟨a :: done, a', by rw [hacts]; rfl, hcrit'⟩, hr⟩

/-- `execute_plan` when the loop ran to the end of the action list. -/
theorem execute_plan_fin_eq (cfg : ExecCfg) (beh : AdapterBehavior)
    (plan : ExecutionPlan) (st : LoopState)
    (h : execute_plan_loop cfg beh plan.actions initial_loop_state =
      LoopOutcome.fin st) :
    execute_plan cfg beh plan =
      { plan_id := plan.plan_id
        status :=
          if st.failed = 0 then "success"
          else if st.completed > 0 then "partial_success"
          else "failed"
        actions_completed := st.completed
        actions_failed := st.failed
        action_results := st.action_results
        rollback_performed := false } := by
  unfold execute_plan
  rw [h]

/-- `execute_plan` when the loop broke after a critical failure: the
rollback stub returns `True`. -/
theorem execute_plan_brk_eq (cfg : ExecCfg) (beh : AdapterBehavior)
    (plan : ExecutionPlan) (st : LoopState) (rem : List Action)
    (h : execute_plan_loop cfg beh plan.actions initial_loop_state =
      LoopOutcome.brk st rem) :
    execute_plan cfg beh plan =
      { plan_id := plan.plan_id
        status :=
          if st.failed = 0 then "success"
          else if st.completed > 0 then "partial_success"
          else "failed"
        actions_completed := st.completed
        actions_failed := st.failed
        action_results := st.action_results
        rollback_performed := true } := by
  unfold execute_plan
  rw [h]
  rfl

/-- `execute_plan` when an unexpected exception left the loop. -/
theorem execute_plan_exc_eq (cfg : ExecCfg) (beh : AdapterBehavior)
    (plan : ExecutionPlan) (st : LoopState)
    (h : execute_plan_loop cfg beh plan.actions initial_loop_state =
      LoopOutcome.exc st) :
    execute_plan cfg beh plan =
      { plan_id := plan.plan_id
        status := "failed"
        actions_completed := st.completed
        actions_failed := st.failed + 1
        action_results := st.action_results
        rollback_performed := false } := by
  unfold execute_plan
  rw [h]

/-! ## Claim C5 -/

/-- C5: for every plan and every adapter behaviour (including the
configurations in which `_execute_action` falls through and an
unexpected exception leaves the action loop into the `except` branch),
the returned `ExecutionResult` satisfies
`actions_completed + actions_failed ≤ len(plan.actions)`. -/
theorem c5_counts_invariant (cfg : ExecCfg) (beh : AdapterBehavior)
    (plan : ExecutionPlan) :
    (execute_plan cfg beh plan).actions_completed +
      (execute_plan cfg beh plan).actions_failed ≤ plan.actions.length := by
  have h := execute_plan_loop_charge cfg beh plan.actions initial_loop_state
  cases hout : execute_plan_loop cfg beh plan.actions initial_loop_state with
  | fin st =>
    rw [execute_plan_fin_eq cfg beh plan st hout]
    rw [hout] at h
    simp only [loop_outcome_charge, initial_loop_state] at h
    dsimp only
    omega
  | brk st rem =>
    rw [execute_plan_brk_eq cfg beh plan st rem hout]
    rw [hout] at h
    simp only [loop_outcome_charge, initial_loop_state] at h
    dsimp only
    omega
  | exc st =>
    rw [execute_plan_exc_eq cfg beh plan st hout]
    rw [hout] at h
    simp only [loop_outcome_charge, initial_loop_state] at h
    dsimp only
    omega

/-! ## Claim C6 -/

/-- C6: whenever at least one retry attempt is allowed (as in the
service's fixed configuration `max_retries = 3`), the returned status is
"success" when zero actions failed, "partial_success" when some actions
completed despite failures, and "failed" when none completed. -/
theorem c6_status_rule (cfg : ExecCfg) (beh : AdapterBehavior)
    (plan : ExecutionPlan) (hm : 1 ≤ cfg.max_retries) :
    (execute_plan cfg beh plan).status =
      if (execute_plan cfg beh plan).actions_failed = 0 then "success"
      else if (execute_plan cfg beh plan).actions_completed > 0 then "partial_success"
      else "failed" := by
  cases hout : execute_plan_loop cfg beh plan.actions initial_loop_state with
  | fin st => rw [execute_plan_fin_eq cfg beh plan st hout]
  | brk st rem => rw [execute_plan_brk_eq cfg beh plan st rem hout]
  | exc st => exact absurd hout (execute_plan_loop_no_exc cfg beh hm _ _ _)

/-! ## Claim C4 -/

/-- C4: a FAILED result of a critical action breaks the loop with
rollback triggered (first conjunct), and conversely
`rollback_performed = true` holds exactly when the loop broke at a
critical action whose FAILED result — produced after exhausting
`max_retries` attempts — is the last recorded result, every action
scheduled after the failure point being left unprocessed (second
conjunct). -/
theorem c4_critical_failure_rollback :
    (∀ (cfg : ExecCfg) (beh : AdapterBehavior) (a : Action) (rest : List Action)
       (st : LoopState) (r : ActionResult) (sleeps : List Nat),
       dependencies_met a st.action_results = true →
       execute_action cfg (beh a st.tick) (action_identifier a st.tick) =
         some (r, sleeps) →
       r.status = ActionStatus.failed → is_critical_action a = true →
       execute_plan_loop cfg beh (a :: rest) st =
         LoopOutcome.brk (push_result st r) rest) ∧
    (∀ (cfg : ExecCfg) (beh : AdapterBehavior) (plan : ExecutionPlan),
       (execute_plan cfg beh plan).rollback_performed = true ↔
         ∃ st rem,
           execute_plan_loop cfg beh plan.actions initial_loop_state =
             LoopOutcome.brk st rem ∧
           (execute_plan cfg beh plan).action_results = st.action_results ∧
           (∃ done a, plan.actions = done ++ a :: rem ∧ is_critical_action a = true) ∧
           ∃ r, st.action_results.getLast? = some r ∧
             r.status = ActionStatus.failed ∧ r.retry_count = cfg.max_retries) := by
  constructor
  · intro cfg beh a rest st r sleeps hdep hexec hfail hcrit
    rw [execute_plan_loop_run cfg beh a rest st r sleeps hdep hexec]
    rw [if_pos ⟨hfail, hcrit⟩]
  · intro cfg beh plan
    constructor
    · intro hroll
      cases hout : execute_plan_loop cfg beh plan.actions initial_loop_state with
      | fin st => rw [execute_plan_fin_eq cfg beh plan st hout] at hroll; simp at hroll
      | brk st rem =>
        obtain ⟨hdecomp, hr⟩ := execute_plan_loop_brk_spec cfg beh plan.actions
          initial_loop_state st rem hout
        refine ⟨st, rem, rfl, ?_, hdecomp, hr⟩
        rw [execute_plan_brk_eq cfg beh plan st rem hout]
      | exc st => rw [execute_plan_exc_eq cfg beh plan st hout] at hroll; simp at hroll
    · intro ⟨st, rem, hout, _, _, _⟩
      rw [execute_plan_brk_eq cfg beh plan st rem hout]

/-- A critical action whose adapters always raise. -/
def book_action : Action :=
  { action_type := "book_appointment"
    target_system := "provider_scheduling"
    parameters := []
    depends_on := none }

/-- An adapter behaviour in which every call raises. -/
def always_fail_behavior : AdapterBehavior :=
  fun _ _ _ => Except.error ("boom")

/-- A one-action plan around `book_action`. -/
def one_book_plan : ExecutionPlan :=
  { plan_id := "plan-crit"
    actions := [book_action]
    estimated_duration_seconds := 2
    affected_systems := ["provider_scheduling"] }

/-- The FAILED result `book_action` earns under `always_fail_behavior`
with the default configuration. -/
def book_fail_result : ActionResult :=
  { action_id := "book_appointment_0"
    status := ActionStatus.failed
    result_data := none
    error_message := some ("boom")
    retry_count := 3 }

/-- Witness for C4 at a concrete critical failure. -/
theorem c4_critical_failure_rollback_witness :
    execute_plan_loop default_cfg always_fail_behavior [book_action]
      initial_loop_state =
    LoopOutcome.brk (push_result initial_loop_state book_fail_result) [] :=
  c4_critical_failure_rollback.1 default_cfg always_fail_behavior book_action []
    initial_loop_state book_fail_result [2, 2] (by decide) (by decide) (by decide)
    (by decide)

/-- Witness for C6 at the concrete default configuration. -/
theorem c6_status_rule_witness :
    (execute_plan default_cfg always_fail_behavior one_book_plan).status =
      if (execute_plan default_cfg always_fail_behavior one_book_plan).actions_failed = 0
      then "success"
      else if (execute_plan default_cfg always_fail_behavior one_book_plan).actions_completed > 0
      then "partial_success"
      else "failed" :=
  c6_status_rule default_cfg always_fail_behavior one_book_plan (by decide)

/-! ## Claim C7 -/

/-- C7: when every allowed attempt of an action raises, `_execute_action`
makes `max_retries` attempts with the fixed `retry_delay_seconds` pause
between consecutive attempts and returns a FAILED result carrying the
last error and `retry_count = max_retries` (first conjunct); the service
defaults are 3 attempts and 2 seconds (middle conjuncts); and a FAILED
non-critical action is recorded while the loop continues with the
remaining actions (last conjunct). -/
theorem c7_retry_exhaustion_and_continuation :
    (∀ (cfg : ExecCfg) (beh : Nat → Except String (List (String × PVal)))
       (aid : String) (errs : Nat → String), 1 ≤ cfg.max_retries →
       (∀ k, k < cfg.max_retries → beh k = Except.error (errs k)) →
       execute_action cfg beh aid =
         some ({ action_id := aid
                 status := ActionStatus.failed
                 result_data := none
                 error_message := some (errs (cfg.max_retries - 1))
                 retry_count := cfg.max_retries },
               List.replicate (cfg.max_retries - 1) cfg.retry_delay_seconds)) ∧
    default_cfg.max_retries = 3 ∧ default_cfg.retry_delay_seconds = 2 ∧
    (∀ (cfg : ExecCfg) (beh : AdapterBehavior) (a : Action) (rest : List Action)
       (st : LoopState) (r : ActionResult) (sleeps : List Nat),
       dependencies_met a st.action_results = true →
       execute_action cfg (beh a st.tick) (action_identifier a st.tick) =
         some (r, sleeps) →
       r.status = ActionStatus.failed → is_critical_action a = false →
       execute_plan_loop cfg beh (a :: rest) st =
         execute_plan_loop cfg beh rest (push_result st r)) := by
  refine ⟨?_, rfl, rfl, ?_⟩
  · intro cfg beh aid errs hm herr
    exact execute_action_loop_all_fail cfg.max_retries cfg.retry_delay_seconds
      beh aid errs cfg.max_retries 0 (by omega) (by omega)
      (fun k _ hk => herr k hk)
  · intro cfg beh a rest st r sleeps hdep hexec hfail hcrit
    rw [execute_plan_loop_run cfg beh a rest st r sleeps hdep hexec]
    rw [if_neg]
    intro hc
    rw [hcrit] at hc
    exact absurd hc.2 (by decide)

/-- Witness for C7: a concrete always-raising action exhausts the three
default attempts with two 2-second sleeps and keeps the last error. -/
theorem c7_retry_exhaustion_witness :
    execute_action default_cfg (fun _ => Except.error ("boom")) "aid-w" =
      some ({ action_id := "aid-w"
              status := ActionStatus.failed
              result_data := none
              error_message := some ("boom")
              retry_count := 3 }, [2, 2]) :=
  c7_retry_exhaustion_and_continuation.1 default_cfg
    (fun _ => Except.error ("boom")) "aid-w" (fun _ => "boom") (by decide)
    (fun _ _ => rfl)

/-! ## Claim C10 -/

/-- The membership test of `_dependencies_met`, unfolded to the claim's
wording: a dependency string is satisfied exactly when it equals
the portion before the first underscore of some already-COMPLETED
result's `action_id`. -/
theorem dependencies_met_iff (a : Action) (results : List ActionResult)
    (deps : List String) (h : a.depends_on = some deps) :
    dependencies_met a results = true ↔
      ∀ dep ∈ deps, ∃ r ∈ results, r.status = ActionStatus.completed ∧
        dep = py_first_field r.action_id := by
  simp only [dependencies_met, h, List.all_eq_true, decide_eq_true_eq,
    completed_types, List.mem_map, List.mem_filter]
  constructor
  · intro hall dep hdep
    obtain ⟨r, ⟨hrmem, hrstat⟩, hid⟩ := hall dep hdep
    exact ⟨r, hrmem, hrstat, hid.symm⟩
  · intro hall dep hdep
    obtain ⟨r, hrmem, hrstat, hid⟩ := hall dep hdep
    exact ⟨r, ⟨hrmem, hrstat⟩, hid.symm⟩

/-- The portion of a string before its first underscore contains no
underscore. -/
theorem py_first_field_no_underscore (s : String) :
    '_' ∉ (py_first_field s).toList := by
  intro hmem
  have := List.mem_takeWhile_imp (p := fun c => decide (c ≠ '_')) (l := s.toList)
    (by simpa [py_first_field] using hmem)
  simp at this

/-- A dependency string containing an underscore never occurs among the
completed types, whatever the results are. -/
theorem underscore_dep_not_completed (dep : String) (hund : '_' ∈ dep.toList)
    (results : List ActionResult) : dep ∉ completed_types results := by
  intro hmem
  simp only [completed_types, List.mem_map, List.mem_filter] at hmem
  obtain ⟨r, _, hid⟩ := hmem
  rw [← hid] at hund
  exact py_first_field_no_underscore r.action_id hund

/-- C10: dependency matching compares each `depends_on` string to the
first-underscore-prefix of completed `action_id`s (first conjunct); an
action with unmet dependencies is silently skipped, leaving results and
counters untouched (second conjunct); executed actions receive ids of
the shape `action_type ++ "_" ++ timestamp` (third conjunct); hence a
dependency containing an underscore — such as "cancel_appointment" — is
never satisfied (fourth and fifth conjuncts). -/
theorem c10_dependency_matching :
    (∀ (a : Action) (results : List ActionResult) (deps : List String),
       a.depends_on = some deps →
       (dependencies_met a results = true ↔
         ∀ dep ∈ deps, ∃ r ∈ results, r.status = ActionStatus.completed ∧
           dep = py_first_field r.action_id)) ∧
    (∀ (cfg : ExecCfg) (beh : AdapterBehavior) (a : Action) (rest : List Action)
       (st : LoopState),
       dependencies_met a st.action_results = false →
       execute_plan_loop cfg beh (a :: rest) st =
         execute_plan_loop cfg beh rest st) ∧
    (∀ (a : Action) (t : Nat),
       action_identifier a t = a.action_type ++ "_" ++ toString t) ∧
    (∀ dep : String, '_' ∈ dep.toList →
       ∀ results : List ActionResult, dep ∉ completed_types results) ∧
    (∀ (a : Action) (results : List ActionResult) (deps : List String),
       a.depends_on = some deps → "cancel_appointment" ∈ deps →
       dependencies_met a results = false) := by
  refine ⟨dependencies_met_iff, execute_plan_loop_skip, fun a t => rfl,
    underscore_dep_not_completed, ?_⟩
  intro a results deps hdeps hmem
  cases hb : dependencies_met a results with
  | false => rfl
  | true =>
    obtain ⟨r, hrmem, hrstat, hid⟩ :=
      (dependencies_met_iff a results deps hdeps).mp hb "cancel_appointment" hmem
    have hin : "cancel_appointment" ∈ completed_types results := by
      simp only [completed_types, List.mem_map, List.mem_filter]
      exact ⟨r, ⟨hrmem, by simp [hrstat]⟩, hid.symm⟩
    exact absurd hin (underscore_dep_not_completed "cancel_appointment" (by decide) results)

/-- A book action depending on "cancel_appointment". -/
def dependent_book_action : Action :=
  { action_type := "book_appointment"
    target_system := "provider_scheduling"
    parameters := []
    depends_on := some ["cancel_appointment"] }

/-- Witness for C10: with a COMPLETED cancel result on record, the
dependency "cancel_appointment" is still unmet (the recorded completed
type is only "cancel"), and the dependent action is skipped without
touching the loop state. -/
theorem c10_dependency_matching_witness :
    dependencies_met dependent_book_action
      [{ action_id := "cancel_appointment_0"
         status := ActionStatus.completed
         result_data := none
         error_message := none
         retry_count := 0 }] = false ∧
    execute_plan_loop default_cfg demo_behavior [dependent_book_action]
        initial_loop_state =
      execute_plan_loop default_cfg demo_behavior [] initial_loop_state :=
  ⟨c10_dependency_matching.2.2.2.2 dependent_book_action _ ["cancel_appointment"]
      rfl (by decide),
   c10_dependency_matching.2.1 default_cfg demo_behavior dependent_book_action []
      initial_loop_state (by decide)⟩

/-! ## Claim C9 -/

/-- C9 counterexample: approving, rejecting while the approval's
background task has not yet run, and then letting the task complete is a
reachable interleaving producing the history
pending_approval → executing → rejected → completed, whose
executing → rejected and rejected → completed steps the claimed state
machine both forbid. -/
theorem c9_counterexample :
    adjacent_ok spec_transition
      (workflow_trace
        [WorkflowEvent.approve (some (BackgroundKind.done ("success"))),
         WorkflowEvent.reject,
         WorkflowEvent.run_background 0]) = false := by
  decide

/-- A background task only ever writes one of the three execution
outcomes. -/
theorem background_status_mem (t : BackgroundKind) :
    background_status t = "completed" ∨ background_status t = "partial_success" ∨
      background_status t = "failed" := by
  cases t with
  | done s =>
    simp only [background_status]
    by_cases h1 : s = "success"
    · rw [if_pos h1]; left; rfl
    · rw [if_neg h1]
      by_cases h2 : s = "failed"
      · rw [if_pos h2]; right; right; rfl
      · rw [if_neg h2]; right; left; rfl
  | raised => right; right; rfl

/-- Every status the workflow writes is "executing" (approve),
"rejected" (reject) or an execution outcome (background task). -/
theorem workflow_run_writes_mem (events : List WorkflowEvent) :
    ∀ (st : WorkflowState) (w : String), w ∈ workflow_run st events →
      w = "executing" ∨ w = "rejected" ∨ w = "completed" ∨
        w = "partial_success" ∨ w = "failed" := by
  induction events with
  | nil => intro st w hw; cases hw
  | cons e es ih =>
    intro st w hw
    cases e with
    | approve task =>
      cases task with
      | some t =>
        simp only [workflow_run, workflow_step, List.cons_append, List.nil_append,
          List.mem_cons] at hw
        rcases hw with h | h
        · left; exact h
        · exact ih _ w h
      | none =>
        simp only [workflow_run, workflow_step, List.cons_append, List.nil_append,
          List.mem_cons] at hw
        rcases hw with h | h
        · left; exact h
        · exact ih _ w h
    | reject =>
      simp only [workflow_run, workflow_step, List.cons_append, List.nil_append,
        List.mem_cons] at hw
      rcases hw with h | h
      · right; left; exact h
      · exact ih _ w h
    | run_background k =>
      cases hget : st.pending.get? k with
      | some t =>
        simp only [workflow_run, workflow_step, hget, List.cons_append,
          List.nil_append, List.mem_cons] at hw
        rcases hw with h | h
        · rcases background_status_mem t with h1 | h1 | h1 <;> rw [h] <;>
            rw [h1] <;> simp
        · exact ih _ w h
      | none =>
        simp only [workflow_run, workflow_step, hget, List.nil_append] at hw
        exact ih _ w hw

/-- Starting with no pending background task (as a freshly stored
recommendation does), no execution outcome can be written before an
approve has written "executing": outcome writes come from background
tasks, and every task is scheduled by an approve whose own "executing"
write precedes it. -/
theorem workflow_run_outcome_after_executing (events : List WorkflowEvent) :
    ∀ st : WorkflowState, st.pending = [] →
      no_outcome_before_executing (workflow_run st events) = true := by
  induction events with
  | nil => intro st _; rfl
  | cons e es ih =>
    intro st hp
    cases e with
    | approve task =>
      cases task with
      | some t =>
        simp only [workflow_run, workflow_step, List.cons_append, List.nil_append]
        unfold no_outcome_before_executing
        rw [if_pos rfl]
      | none =>
        simp only [workflow_run, workflow_step, List.cons_append, List.nil_append]
        unfold no_outcome_before_executing
        rw [if_pos rfl]
    | reject =>
      simp only [workflow_run, workflow_step, List.cons_append, List.nil_append]
      unfold no_outcome_before_executing
      rw [if_neg (by decide), if_neg (by decide)]
      exact ih _ hp
    | run_background k =>
      have hget : st.pending.get? k = none := by rw [hp]; rfl
      simp only [workflow_run, workflow_step, hget, List.nil_append]
      exact ih st hp

/-- C9 (amended): the routes do not implement the claimed machine.
`approve` writes "executing" and `reject` writes "rejected" from any
current status, and a scheduled background task unconditionally writes
its outcome at whatever later point it runs — possibly after a reject,
so rejected is not terminal and an outcome write can follow "rejected"
(last conjunct exhibits the reachable history pending_approval →
executing → rejected → completed).  What survives of the claimed
machine: every written status is one of executing, rejected, completed,
partial_success, failed (first conjunct); an execution outcome is never
written before some approve's "executing" write (second conjunct); so
the first status after pending_approval is always "executing" or
"rejected" (third conjunct). -/
theorem c9_amended_workflow_transitions :
    (∀ (events : List WorkflowEvent) (w : String),
       w ∈ workflow_run initial_workflow_state events →
       w = "executing" ∨ w = "rejected" ∨ w = "completed" ∨
         w = "partial_success" ∨ w = "failed") ∧
    (∀ events : List WorkflowEvent,
       no_outcome_before_executing
         (workflow_run initial_workflow_state events) = true) ∧
    (∀ (events : List WorkflowEvent) (w : String) (rest : List String),
       workflow_run initial_workflow_state events = w :: rest →
       w = "executing" ∨ w = "rejected") ∧
    (workflow_trace
        [WorkflowEvent.approve (some (BackgroundKind.done ("success"))),
         WorkflowEvent.reject,
         WorkflowEvent.run_background 0] =
      ["pending_approval", "executing", "rejected", "completed"]) := by
  refine ⟨fun events w hw => workflow_run_writes_mem events _ w hw,
    fun events => workflow_run_outcome_after_executing events _ rfl, ?_, by decide⟩
  intro events w rest hrun
  have hmem : w ∈ workflow_run initial_workflow_state events := by
    rw [hrun]; exact List.mem_cons_self w rest
  rcases workflow_run_writes_mem events _ w hmem with h | h | h | h | h
  · left; exact h
  · right; exact h
  all_goals
    exfalso
    have hno := workflow_run_outcome_after_executing events initial_workflow_state rfl
    rw [hrun] at hno
    unfold no_outcome_before_executing at hno
    rw [if_neg (by rw [h]; decide), if_pos (by rw [h]; decide)] at hno
    exact absurd hno (by decide)

/-- Witness for C9 (amended): a lone approval's first write is
"executing", and the outcome write of the reject-interleaved history is
among the three execution outcomes. -/
theorem c9_amended_workflow_transitions_witness :
    (("executing" : String) = "executing" ∨ ("executing" : String) = "rejected") ∧
    (("completed" : String) = "executing" ∨ ("completed" : String) = "rejected" ∨
      ("completed" : String) = "completed" ∨
      ("completed" : String) = "partial_success" ∨
      ("completed" : String) = "failed") :=
  ⟨c9_amended_workflow_transitions.2.2.1
      [WorkflowEvent.approve (some (BackgroundKind.done ("success")))]
      "executing" [] (by decide),
   c9_amended_workflow_transitions.1
      [WorkflowEvent.approve (some (BackgroundKind.done ("success"))),
       WorkflowEvent.reject, WorkflowEvent.run_background 0]
      "completed" (by decide)⟩

/-! ## Claim C2 -/

/-- The maximum candidate score, floored at the 0.7 selection threshold
(proof accounting device for the selection loop). -/
def floored_max_score (candidates : List Client) : ℚ :=
  (candidates.map score_appointment_candidate).foldr max 0.7

theorem floored_max_score_cons (c : Client) (l : List Client) :
    floored_max_score (c :: l) =
      max (score_appointment_candidate c) (floored_max_score l) := rfl

theorem threshold_le_floored_max (l : List Client) :
    (0.7 : ℚ) ≤ floored_max_score l := by
  induction l with
  | nil => exact le_refl _
  | cons c t ih => exact le_trans ih (le_max_right _ _)

theorem le_floored_max_score {c : Client} {l : List Client} (h : c ∈ l) :
    score_appointment_candidate c ≤ floored_max_score l := by
  induction l with
  | nil => cases h
  | cons x t ih =>
    rcases List.mem_cons.mp h with h1 | h2
    · rw [h1, floored_max_score_cons]; exact le_max_left _ _
    · rw [floored_max_score_cons]; exact le_trans (ih h2) (le_max_right _ _)

theorem floored_max_score_le {l : List Client} {b : ℚ} (hb : (0.7 : ℚ) ≤ b)
    (h : ∀ x ∈ l, score_appointment_candidate x ≤ b) :
    floored_max_score l ≤ b := by
  induction l with
  | nil => exact hb
  | cons x t ih =>
    rw [floored_max_score_cons]
    exact max_le (h x (List.mem_cons_self x t)) (ih (fun y hy => h y (List.mem_cons_of_mem x hy)))

/-- Closed form of the candidate selection loop: starting from
`(b0, s0)` it returns the first candidate attaining the maximum score
(and that score) when the maximum beats both `s0` and the 0.7
threshold, and leaves the accumulator untouched otherwise. -/
theorem select_candidate_loop_spec (l : List Client) :
    ∀ (b0 : Option Client) (s0 : ℚ),
      select_candidate_loop b0 s0 l =
        if floored_max_score l > s0 ∧ floored_max_score l > 0.7 then
          (l.find? (fun c =>
              decide (score_appointment_candidate c = floored_max_score l)),
           floored_max_score l)
        else (b0, s0) := by
  induction l with
  | nil =>
    intro b0 s0
    rw [if_neg]
    · rfl
    · rintro ⟨_, h⟩
      exact lt_irrefl _ h
  | cons c t ih =>
    intro b0 s0
    by_cases h : score_appointment_candidate c > s0 ∧ score_appointment_candidate c > 0.7
    · rw [show select_candidate_loop b0 s0 (c :: t) =
          select_candidate_loop (some c) (score_appointment_candidate c) t by
        conv_lhs => unfold select_candidate_loop
        dsimp only
        rw [if_pos h]]
      rw [ih (some c) (score_appointment_candidate c)]
      by_cases hA1 : floored_max_score t > score_appointment_candidate c ∧
          floored_max_score t > 0.7
      · rw [if_pos hA1]
        have hM : floored_max_score (c :: t) = floored_max_score t := by
          rw [floored_max_score_cons]
          exact max_eq_right (le_of_lt hA1.1)
        rw [hM, if_pos ⟨lt_trans h.1 hA1.1, hA1.2⟩]
        rw [List.find?_cons_of_neg]
        simp only [decide_eq_true_eq]
        exact ne_of_lt hA1.1
      · rw [if_neg hA1]
        have hle : floored_max_score t ≤ score_appointment_candidate c := by
          rcases not_and_or.mp hA1 with h1 | h2
          · exact le_of_not_lt h1
          · exact le_of_lt (lt_of_le_of_lt (le_of_not_lt h2) h.2)
        have hM : floored_max_score (c :: t) = score_appointment_candidate c := by
          rw [floored_max_score_cons]
          exact max_eq_left hle
        rw [hM, if_pos h]
        rw [List.find?_cons_of_pos]
        simp
    · rw [show select_candidate_loop b0 s0 (c :: t) = select_candidate_loop b0 s0 t by
        conv_lhs => unfold select_candidate_loop
        dsimp only
        rw [if_neg h]]
      rw [ih b0 s0]
      by_cases hB1 : floored_max_score t > s0 ∧ floored_max_score t > 0.7
      · rw [if_pos hB1]
        have hlt : score_appointment_candidate c < floored_max_score t := by
          rcases lt_or_le (score_appointment_candidate c) (floored_max_score t) with hlt | hge
          · exact hlt
          · exfalso
            rcases lt_or_eq_of_le hge with hgt | heq
            · exact h ⟨lt_trans hB1.1 hgt, lt_trans hB1.2 hgt⟩
            · rw [heq] at hB1
              exact h hB1
        have hM : floored_max_score (c :: t) = floored_max_score t := by
          rw [floored_max_score_cons]
          exact max_eq_right (le_of_lt hlt)
        rw [hM, if_pos hB1]
        rw [List.find?_cons_of_neg]
        simp only [decide_eq_true_eq]
        exact ne_of_lt hlt
      · rw [if_neg hB1]
        rw [if_neg]
        rintro ⟨hc1, hc2⟩
        rw [floored_max_score_cons] at hc1 hc2
        rcases max_choice (score_appointment_candidate c) (floored_max_score t) with hm | hm
        · rw [hm] at hc1 hc2
          exact h ⟨hc1, hc2⟩
        · rw [hm] at hc1 hc2
          exact hB1 ⟨hc1, hc2⟩

/-- The scoring formula the specification claims, written from the
claim's words (inner clamp of the urgency term at 1 and outer clamp to
the interval from 0 to 1), for comparison with the source's
`score_appointment_candidate`. -/
def spec_claimed_score (client : Client) : ℚ :=
  max 0 (min 1
    (0.4 * min (client.urgency_score / 10) 1
      + (if client.documents_complete then 0.2 else 0)
      + (if is_transport_compatible client then 0.2 else 0)
      + (if has_conflicts client then 0 else 0.2)))

/-- A candidate with urgency 30 (above the 0-10 scale the scoring
comment assumes) and incomplete documents. -/
def client_x : Client :=
  { id := "client-X", urgency_score := 30, documents_complete := false }

/-- C2 counterexample: at urgency 30 the source computes
`min(0.4·3 + 0.4, 1) = 1` while the claimed clamped formula yields
`0.4·1 + 0.4 = 0.8`. -/
theorem c2_counterexample :
    score_appointment_candidate client_x ≠ spec_claimed_score client_x := by
  have h1 : score_appointment_candidate client_x = 1 := by
    simp only [score_appointment_candidate, client_x, is_transport_compatible,
      has_conflicts, if_true, if_false, Bool.false_eq_true]
    rw [min_eq_right (by norm_num)]
  have h2 : spec_claimed_score client_x = 4/5 := by
    simp only [spec_claimed_score, client_x, is_transport_compatible,
      has_conflicts, if_true, if_false, Bool.false_eq_true]
    rw [min_eq_right (by norm_num)]
    rw [min_eq_right (by norm_num)]
    rw [max_eq_right (by norm_num)]
    norm_num
  rw [h1, h2]
  norm_num

/-- C2 (amended): the source's score is the unclamped-below sum capped
at 1 — the urgency term `(urgency/10)·0.4` is not clamped at 0.4 and the
sum is not clamped at 0 (first conjunct; it agrees with the claimed
formula only for urgency in the 0–10 range) — and a candidate is
selected iff its score strictly exceeds 0.7, it is maximum-scoring among
the candidates, and it is the first candidate attaining that maximum
(second conjunct). -/
theorem c2_amended_scoring_selection :
    (∀ client : Client,
       score_appointment_candidate client =
         min ((client.urgency_score / 10) * 0.4
           + (if client.documents_complete then 0.2 else 0)
           + (if is_transport_compatible client then 0.2 else 0)
           + (if has_conflicts client then 0 else 0.2)) 1) ∧
    (∀ (candidates : List Client) (c : Client),
       (select_candidate candidates).1 = some c ↔
         score_appointment_candidate c > 0.7 ∧
         (∀ x ∈ candidates,
            score_appointment_candidate x ≤ score_appointment_candidate c) ∧
         candidates.find? (fun x =>
             decide (score_appointment_candidate x = score_appointment_candidate c)) =
           some c) := by
  constructor
  · intro client; rfl
  · intro cs c
    unfold select_candidate
    rw [select_candidate_loop_spec cs none 0]
    by_cases hcond : floored_max_score cs > 0 ∧ floored_max_score cs > 0.7
    · rw [if_pos hcond]
      dsimp only
      constructor
      · intro hfind
        have hp := List.find?_some hfind
        simp only [decide_eq_true_eq] at hp
        refine ⟨hp ▸ hcond.2, fun x hx => hp ▸ le_floored_max_score hx, ?_⟩
        rw [hp]
        exact hfind
      · rintro ⟨hgt, hub, hfind⟩
        have hM : floored_max_score cs = score_appointment_candidate c :=
          le_antisymm (floored_max_score_le (le_of_lt hgt) hub)
            (le_floored_max_score (List.mem_of_find?_eq_some hfind))
        rw [hM]
        exact hfind
    · rw [if_neg hcond]
      dsimp only
      constructor
      · intro h; cases h
      · rintro ⟨hgt, hub, hfind⟩
        exfalso
        have hle : score_appointment_candidate c ≤ floored_max_score cs :=
          le_floored_max_score (List.mem_of_find?_eq_some hfind)
        have hM7 : floored_max_score cs > 0.7 := lt_of_lt_of_le hgt hle
        exact hcond ⟨lt_trans (by norm_num) hM7, hM7⟩

/-! ## Scenario A evaluation -/

theorem score_client_a : score_appointment_candidate client_a = 13/25 := by
  simp only [score_appointment_candidate, client_a, is_transport_compatible,
    has_conflicts, if_true, if_false, Bool.false_eq_true]
  rw [min_eq_left (by norm_num)]
  norm_num

theorem score_client_b : score_appointment_candidate client_b = 23/25 := by
  simp only [score_appointment_candidate, client_b, is_transport_compatible,
    has_conflicts, if_true, if_false, Bool.false_eq_true]
  rw [min_eq_left (by norm_num)]
  norm_num

/-- Candidate A (score 0.52) fails the threshold; candidate B
(score 0.92) is selected. -/
theorem select_scenario :
    select_candidate [client_a, client_b] = (some client_b, 23/25) := by
  unfold select_candidate
  conv_lhs => unfold select_candidate_loop
  dsimp only
  rw [score_client_a, if_neg (by norm_num)]
  conv_lhs => unfold select_candidate_loop
  dsimp only
  rw [score_client_b, if_pos (by norm_num)]
  rfl

/-- The decision `_handle_appointment_cancellation` produces in
Scenario A. -/
def scenario_decision : Decision :=
  { decision_type := "bump_appointment"
    original_client_id := some ("client-orig")
    new_client_id := "client-B"
    appointment_time := some 36000
    provider_id := some ("prov-1")
    confidence := 23/25
    reasoning :=
      ["Higher medical urgency (" ++ toString client_b.urgency_score ++ ")",
       "All required documents uploaded",
       "Lives on existing transport route",
       "No scheduling conflicts"] }

/-- The context gathered for the scenario event. -/
def scenario_context : Context :=
  { affected_client := none
    related_clients := [client_a, client_b]
    provider_capacity := []
    system_state := []
    historical_patterns := []
    business_rules := [] }

theorem get_full_context_scenario :
    get_full_context scenario_collaborators scenario_event =
      Except.ok scenario_context := rfl

theorem handle_cancellation_scenario :
    handle_appointment_cancellation scenario_event scenario_context =
      some scenario_decision := by
  unfold handle_appointment_cancellation
  rw [show scenario_context.related_clients = [client_a, client_b] from rfl,
    select_scenario]
  rfl

/-- The six-action plan `_create_execution_plan` builds in Scenario A
(timestamp tick 0). -/
def scenario_plan : ExecutionPlan :=
  { plan_id := "plan_0"
    actions :=
      [{ action_type := "cancel_appointment"
         target_system := "provider_scheduling"
         parameters :=
           [("provider_id", PVal.vs ("prov-1")),
            ("client_id", PVal.vs ("client-B")),
            ("appointment_time", PVal.vi 36000)] },
       { action_type := "book_appointment"
         target_system := "provider_scheduling"
         parameters :=
           [("provider_id", PVal.vs ("prov-1")),
            ("client_id", PVal.vs ("client-B")),
            ("appointment_time", PVal.vi 36000)]
         depends_on := some ["cancel_appointment"] },
       { action_type := "update_transport"
         target_system := "transportation"
         parameters :=
           [("client_id", PVal.vs ("client-B")),
            ("pickup_time", PVal.vi 34200),
            ("destination", PVal.vs ("provider_location"))] },
       { action_type := "send_sms"
         target_system := "notifications"
         parameters :=
           [("client_id", PVal.vs ("client-B")),
            ("message", PVal.vs
              ("Good news! Your appointment moved up to today at 36000. Transport arranged."))] },
       { action_type := "notify_provider"
         target_system := "provider_api"
         parameters :=
           [("provider_id", PVal.vs ("prov-1")),
            ("message", PVal.vs ("Patient update: client-B moved to 36000"))] },
       { action_type := "update_case"
         target_system := "case_management"
         parameters :=
           [("client_id", PVal.vs ("client-B")),
            ("update_type", PVal.vs ("appointment_rescheduled")),
            ("details", PVal.vdecision scenario_decision)] }]
    estimated_duration_seconds := 12
    affected_systems :=
      ["provider_scheduling", "transportation", "notifications", "provider_api",
       "case_management"] }

theorem create_plan_scenario :
    create_execution_plan scenario_decision 0 = Except.ok scenario_plan := by
  rfl

/-- The formatted recommendation of Scenario A. -/
def scenario_recommendation : Recommendation :=
  { recommendation_id := "rec_0"
    summary := "Bump Client client-B to today's 36000 appointment?"
    reasoning := scenario_decision.reasoning
    impact :=
      { cost_savings := 120
        urgency_improvement := PVal.vs ("high")
        efficiency_gain := 0 }
    execution_plan := scenario_plan
    confidence_score := 23/25
    requires_approval := true }

theorem calculate_impact_scenario :
    calculate_impact scenario_decision =
      { cost_savings := 120
        urgency_improvement := PVal.vs ("high")
        efficiency_gain := 0 } := by
  unfold calculate_impact
  rw [if_pos (show scenario_decision.decision_type = "bump_appointment" from rfl)]
  rw [if_pos (show scenario_decision.confidence > 0.8 by
    show (23 : ℚ)/25 > 0.8
    norm_num)]

theorem format_recommendation_scenario :
    format_recommendation scenario_decision scenario_plan 0 =
      scenario_recommendation := by
  unfold format_recommendation
  rw [calculate_impact_scenario]
  rfl

theorem handle_event_try_scenario :
    handle_event_try scenario_collaborators 0 scenario_event =
      Except.ok (some scenario_recommendation) := by
  unfold handle_event_try
  rw [if_pos (show should_orchestrate scenario_event = true from rfl)]
  rw [get_full_context_scenario]
  show (Except.ok scenario_context >>= fun context => _) = _
  rw [show ∀ (f : Context → Except String (Option Recommendation)),
      Except.ok scenario_context >>= f = f scenario_context from fun f => rfl]
  show (make_decision scenario_collaborators scenario_event scenario_context >>=
    fun decision? => _) = _
  rw [show make_decision scenario_collaborators scenario_event scenario_context =
      Except.ok (some scenario_decision) by
    unfold make_decision apply_business_rules
    rw [if_pos (show scenario_event.event_type = "appointment_cancelled" from rfl)]
    rw [handle_cancellation_scenario]]
  rw [show ∀ (f : Option Decision → Except String (Option Recommendation)),
      Except.ok (some scenario_decision) >>= f = f (some scenario_decision) from
    fun f => rfl]
  dsimp only
  rw [create_plan_scenario]
  rw [show ∀ (f : ExecutionPlan → Except String (Option Recommendation)),
      Except.ok scenario_plan >>= f = f scenario_plan from fun f => rfl]
  rw [format_recommendation_scenario]
  rfl

/-- Scenario A end to end: the event with candidates A and B produces
exactly the scenario recommendation. -/
theorem handle_event_scenario :
    handle_event scenario_collaborators 0 scenario_event =
      some scenario_recommendation := by
  unfold handle_event
  rw [handle_event_try_scenario]

/-! ## Claim C3 -/

/-- C3: in Scenario A, `handle_event` selects candidate B with score
0.92 (= 23/25), returns a Recommendation whose confidence equals that
score, and whose plan holds exactly the six actions in order with
`book_appointment` depending on `cancel_appointment`. -/
theorem c3_scenario_a_recommendation :
    handle_event scenario_collaborators 0 scenario_event =
      some scenario_recommendation ∧
    scenario_recommendation.confidence_score = 23/25 ∧
    (23 : ℚ)/25 = 0.92 ∧
    select_candidate [client_a, client_b] = (some client_b, 23/25) ∧
    score_appointment_candidate client_b = 23/25 ∧
    score_appointment_candidate client_a = 13/25 ∧
    scenario_recommendation.execution_plan.actions.map Action.action_type =
      ["cancel_appointment", "book_appointment", "update_transport", "send_sms",
       "notify_provider", "update_case"] ∧
    scenario_recommendation.execution_plan.actions.map Action.depends_on =
      [none, some ["cancel_appointment"], none, none, none, none] ∧
    scenario_recommendation.summary =
      "Bump Client client-B to today's 36000 appointment?" :=
  ⟨handle_event_scenario, rfl, by norm_num, select_scenario, score_client_b,
   score_client_a, rfl, rfl, rfl⟩

/-! ## Claim C1 -/

/-- The five results the demo executor records for the scenario plan:
`book_appointment` is silently skipped because its dependency string
"cancel_appointment" never equals the recorded completed type
"cancel". -/
def scenario_execution_results : List ActionResult :=
  [{ action_id := "cancel_appointment_0"
     status := ActionStatus.completed
     result_data := some [("status", PVal.vs ("cancelled")),
       ("confirmation", PVal.vs ("DEMO-12345"))]
     error_message := none
     retry_count := 0 },
   { action_id := "update_transport_1"
     status := ActionStatus.completed
     result_data := some [("status", PVal.vs ("updated")),
       ("route_id", PVal.vs ("DEMO-ROUTE-001"))]
     error_message := none
     retry_count := 0 },
   { action_id := "send_sms_2"
     status := ActionStatus.completed
     result_data := some [("status", PVal.vs ("sent")),
       ("message_id", PVal.vs ("DEMO-SMS-001"))]
     error_message := none
     retry_count := 0 },
   { action_id := "notify_provider_3"
     status := ActionStatus.completed
     result_data := some [("status", PVal.vs ("notified"))]
     error_message := none
     retry_count := 0 },
   { action_id := "update_case_4"
     status := ActionStatus.completed
     result_data := some [("status", PVal.vs ("updated"))]
     error_message := none
     retry_count := 0 }]

/-- C1 (evaluation at the failing input): executing the approved
Scenario A plan in demo mode succeeds with zero failures and no
rollback, but completes only five of the six actions —
`book_appointment` is skipped because `_dependencies_met` compares
"cancel_appointment" against the first-underscore prefix "cancel" of the
completed action id — so `actions_completed = 5`, not the claimed 6. -/
theorem c1_scenario_b_demo_execution :
    handle_event scenario_collaborators 0 scenario_event =
      some scenario_recommendation ∧
    execute_plan default_cfg demo_behavior scenario_recommendation.execution_plan =
      { plan_id := "plan_0"
        status := "success"
        actions_completed := 5
        actions_failed := 0
        action_results := scenario_execution_results
        rollback_performed := false } ∧
    scenario_execution_results.map ActionResult.action_id =
      ["cancel_appointment_0", "update_transport_1", "send_sms_2",
       "notify_provider_3", "update_case_4"] :=
  ⟨handle_event_scenario, by decide, rfl⟩

/-! ## Claim C8 -/

/-- C8: `handle_event` wraps the whole brain cycle in one `try/except`:
whenever the body (context gathering, decision, planning, formatting,
pattern storage) raises, the call returns `None` instead of propagating,
and whenever the body returns, its value is passed through unchanged. -/
theorem c8_fail_safe :
    (∀ (co : Collaborators) (ts : Nat) (event : Event) (e : String),
       handle_event_try co ts event = Except.error e →
       handle_event co ts event = none) ∧
    (∀ (co : Collaborators) (ts : Nat) (event : Event) (r : Option Recommendation),
       handle_event_try co ts event = Except.ok r →
       handle_event co ts event = r) := by
  constructor
  · intro co ts event e h
    unfold handle_event
    rw [h]
  · intro co ts event r h
    unfold handle_event
    rw [h]

/-- Collaborators whose related-clients query raises. -/
def failing_collaborators : Collaborators :=
  { query_client := fun _ => Except.ok none
    query_related_clients := fun _ => Except.error ("database connection lost")
    query_provider_capacity := fun _ => Except.ok []
    query_system_state := Except.ok []
    query_historical_patterns := fun _ => Except.ok []
    store_pattern := fun _ _ _ _ => Except.ok ()
    ai := none }

/-- Witness for C8: a context-gathering failure yields no
recommendation rather than an error. -/
theorem c8_fail_safe_witness :
    handle_event failing_collaborators 0 scenario_event = none :=
  c8_fail_safe.1 failing_collaborators 0 scenario_event
    "database connection lost" (by rfl)

end EIS
